import Mathlib

/-!
Shallow embedding of the Telegram AI bot (`src/main.py`) and verification of
its specification claims.

Python strings are modelled as `List Char` (Python strings are sequences of
code points).  Database rows live in a `Store : List UserRecord`; the SQLite
operations of `DatabaseManager` become pure Lean functions on the store.
Network and transport effects (HTTP responses, raised exceptions of outbound
Telegram sends, the salted string hash used by `fallback_chat`) are supplied
explicitly through an `Env` record, so every handler is a total function of
its inputs.
-/

set_option maxHeartbeats 1000000
set_option maxRecDepth 8000

abbrev Chars := List Char

/-- Character-list view of a Lean string literal; used to transcribe the
Python string literals of the source. -/
def chars (s : String) : Chars := s.data

/-- Python substring containment (`needle in haystack`). -/
def containsSub (needle : Chars) : Chars → Bool
  | [] => needle.isEmpty
  | c :: rest => needle.isPrefixOf (c :: rest) || containsSub needle rest

/-- Python `str.lower()`, restricted to the ASCII case mapping (the Persian
keywords of the source have no case and are unaffected). -/
def pyLower (t : Chars) : Chars := t.map Char.toLower

/-- Python whitespace test used by `str.strip()`. -/
def isPySpace (c : Char) : Bool :=
  c == ' ' || c == '\n' || c == '\t' || c == '\r'

/-- Python `str.strip()`. -/
def pyStrip (t : Chars) : Chars :=
  ((t.dropWhile isPySpace).reverse.dropWhile isPySpace).reverse

/-- Index of the last occurrence of `sep` in `text`, if any. -/
def lastOccIdx (sep text : Chars) : Option Nat :=
  (((List.range (text.length + 1)).filter
      (fun i => sep.isPrefixOf (text.drop i)))).getLast?

/-- Python `text.split(sep)[-1]` for a separator known to be non-empty:
the suffix after the last occurrence of `sep` (or all of `text` if `sep`
does not occur). -/
def afterLast (sep text : Chars) : Chars :=
  match lastOccIdx sep text with
  | some i => text.drop (i + sep.length)
  | none => text

/-! ### FreeAIServices -/

/-- Keyword/response pairs of `fallback_chat`'s `responses` dict, in
insertion order (`main.py` lines 80-86). -/
def responses : List (Chars × Chars) :=
  [ (chars "سلام", chars "سلام! به بات هوشمند خوش آمدید! 🤖\nچگونه می‌توانم کمک کنم؟"),
    (chars "چطوری", chars "خوبم ممنون! 😊\nشما چطورید؟"),
    (chars "خداحافظ", chars "خداحافظ! موفق باشید 🌟"),
    (chars "تشکر", chars "خواهش می‌کنم! اگر سوال دیگری دارید بپرسید. 💫"),
    (chars "help", chars "من می‌توانم:\n• به سوالات پاسخ دهم\n• در اینترنت جستجو کنم\n• تصاویر ساده تولید کنم\n\nکافیست سوال خود را بپرسید!") ]

/-- The `general_responses` list of `fallback_chat` (`main.py` lines 94-99). -/
def general_responses : List Chars :=
  [ chars "سوال جالبی پرسیدید! در حال حاضر سرویس اصلی در دسترس نیست. 🔄",
    chars "متوجه شدم. می‌توانید سوال خود را به صورت واضح‌تر بیان کنید? 💭",
    chars "در حال حاضر امکان پاسخ دقیق وجود ندارد. لطفاً سوال دیگری بپرسید. ⏳",
    chars "پاسخ به این سوال نیاز به منابع بیشتری دارد. سوال ساده‌تری بپرسید. 💡" ]

/-- `FreeAIServices.fallback_chat` (`main.py` lines 76-103).  The Python
`hash` builtin is passed in as `pyHash` (it is fixed for the lifetime of a
process run). -/
def fallback_chat (pyHash : Chars → Nat) (prompt : Chars) : Chars :=
  let prompt_lower := pyLower prompt
  match responses.find? (fun kv => containsSub kv.1 prompt_lower) with
  | some kv => kv.2
  | none => general_responses.getD (pyHash prompt % general_responses.length) []

/-- Shape of the JSON body returned by the text-generation endpoint, as far
as `query_llama_free` inspects it. -/
inductive LlamaBody where
  /-- a non-empty JSON list; argument is `result[0].get('generated_text', '')`
  where `none` models an absent key (defaulted to `''`). -/
  | list0 (generated : Option Chars)
  /-- the body is not a list, or is an empty list. -/
  | notList
deriving DecidableEq, Repr

/-- Outcome of the chat adapter's HTTP request. -/
inductive ChatOutcome where
  /-- the request completed with the given status and body. -/
  | http (status : Nat) (body : LlamaBody)
  /-- the request raised an exception (timeout, transport error, ...). -/
  | exn
deriving Repr

/-- `FreeAIServices.query_llama_free` (`main.py` lines 40-74). -/
def query_llama_free (pyHash : Chars → Nat) (o : ChatOutcome) (prompt : Chars) : Chars :=
  match o with
  | .exn => fallback_chat pyHash prompt
  | .http status body =>
    if status == 200 then
      match body with
      | .list0 g? =>
        let generated_text := g?.getD []
        if containsSub (chars "پاسخ:") generated_text then
          pyStrip (afterLast (chars "پاسخ:") generated_text)
        else generated_text
      | .notList => chars "🤖 پاسخ دریافت شد اما پردازش نشد."
    else fallback_chat pyHash prompt

/-- One element of `RelatedTopics` as far as the search adapter inspects it:
optional `Text` and `FirstURL` keys. -/
structure DDGTopic where
  text? : Option Chars
  firstURL? : Option Chars
deriving DecidableEq, Repr

/-- The DuckDuckGo JSON body as far as the search adapter inspects it.
`abstractText = none` models an absent `AbstractText` key. -/
structure DDGResult where
  abstractText : Option Chars
  relatedTopics : List DDGTopic
deriving DecidableEq, Repr

/-- Outcome of the search adapter's HTTP request. -/
inductive SearchOutcome where
  /-- the request completed with the given status and body. -/
  | http (status : Nat) (result : DDGResult)
  /-- the request raised an exception (timeout, transport error, ...). -/
  | exn
deriving Repr

/-- The line contributed by one related topic (`main.py` lines 123-127):
`Text` is preferred and truncated to 200 characters, else `FirstURL` is
appended untruncated, else nothing. -/
def topicLine (t : DDGTopic) : Chars :=
  match t.text? with
  | some txt => chars "• " ++ txt.take 200 ++ chars "\n"
  | none =>
    match t.firstURL? with
    | some u => chars "• " ++ u ++ chars "\n"
    | none => []

/-- `FreeAIServices.web_search_duckduckgo` (`main.py` lines 105-137). -/
def web_search_duckduckgo (o : SearchOutcome) (query : Chars) : Chars :=
  match o with
  | .exn => chars "⚠️ سرویس جستجو موقتاً در دسترس نیست.\n\n💡 لطفاً کمی بعد تلاش کنید."
  | .http status result =>
    if status == 200 then
      -- `result.get('AbstractText') and result['AbstractText'] != ''`:
      -- truthy exactly when the key is present with a non-empty string.
      if result.abstractText.getD [] ≠ [] then
        chars "🔍 **نتایج جستجو برای \x27" ++ query ++ chars "\x27:**\n\n" ++
          (result.abstractText.getD []).take 1000
      else if result.relatedTopics ≠ [] then
        (result.relatedTopics.take 2).foldl (fun acc t => acc ++ topicLine t)
          (chars "🔍 **موضوعات مرتبط با \x27" ++ query ++ chars "\x27:**\n\n")
      else
        chars "❌ هیچ نتیجه‌ای برای \x27" ++ query ++ chars "\x27 یافت نشد.\n\n💡 سوال خود را به صورت متفاوت بیان کنید."
    else
      chars "⚠️ خطا در انجام جستجو."

/-- Topic/URL pairs of `generate_simple_image`'s `image_topics` dict, in
insertion order (`main.py` lines 143-152). -/
def image_topics : List (Chars × Chars) :=
  [ (chars "طبیعت", chars "https://picsum.photos/512/512?nature"),
    (chars "شهر", chars "https://picsum.photos/512/512?city"),
    (chars "تکنولوژی", chars "https://picsum.photos/512/512?tech"),
    (chars "هنر", chars "https://picsum.photos/512/512?art"),
    (chars "حیوانات", chars "https://picsum.photos/512/512?animals"),
    (chars "غذا", chars "https://picsum.photos/512/512?food"),
    (chars "سفر", chars "https://picsum.photos/512/512?travel"),
    (chars "ورزش", chars "https://picsum.photos/512/512?sports") ]

/-- `FreeAIServices.generate_simple_image` (`main.py` lines 139-164); never
fails, only builds a URL string. -/
def generate_simple_image (prompt : Chars) : Chars :=
  match image_topics.find? (fun kv => containsSub kv.1 (pyLower prompt)) with
  | some kv => kv.2
  | none => chars "https://picsum.photos/512/512"

/-! ### DatabaseManager -/

/-- One row of the `users` table (`main.py` lines 176-187).  Timestamps are
modelled as abstract `Nat` clock values. -/
structure UserRecord where
  user_id : Nat
  username : Option Chars
  first_name : Option Chars
  last_name : Option Chars
  daily_requests : Nat
  total_requests : Nat
  created_at : Nat
  last_active : Nat
deriving DecidableEq, Repr

/-- The `users` table. -/
abbrev Store := List UserRecord

/-- Row lookup by primary key (the `SELECT ... WHERE user_id = ?`). -/
def dbLookup (store : Store) (uid : Nat) : Option UserRecord :=
  store.find? (fun r => r.user_id == uid)

/-- `DatabaseManager.get_user` (`main.py` lines 193-215): returns the row as
a dict, or `None` either when no row exists or when the read raised (the
exception is caught and logged). -/
def get_user (readFails : Bool) (store : Store) (uid : Nat) : Option UserRecord :=
  if readFails then none else dbLookup store uid

/-- The dict argument of `update_user` as built by its callers. -/
structure UserData where
  user_id : Nat
  username : Option Chars
  first_name : Option Chars
  last_name : Option Chars
  daily_requests : Nat
  total_requests : Nat
deriving DecidableEq, Repr

/-- Row written by `INSERT OR REPLACE`: `created_at` and `last_active` take
the `CURRENT_TIMESTAMP` default (`REPLACE` deletes and re-inserts the row,
so `created_at` is refreshed too). -/
def replacedRow (now : Nat) (d : UserData) : UserRecord :=
  { user_id := d.user_id, username := d.username, first_name := d.first_name,
    last_name := d.last_name, daily_requests := d.daily_requests,
    total_requests := d.total_requests, created_at := now, last_active := now }

/-- `DatabaseManager.update_user` (`main.py` lines 217-235): keyed
insert-or-replace. -/
def update_user (now : Nat) (d : UserData) (store : Store) : Store :=
  if store.any (fun r => r.user_id == d.user_id) then
    store.map (fun r => if r.user_id == d.user_id then replacedRow now d else r)
  else
    store ++ [replacedRow now d]

/-- The row update performed by `increment_requests` on the matching row. -/
def bumpRow (now : Nat) (r : UserRecord) : UserRecord :=
  { r with daily_requests := r.daily_requests + 1,
           total_requests := r.total_requests + 1,
           last_active := now }

/-- `DatabaseManager.increment_requests` (`main.py` lines 237-250): SQL
`UPDATE ... WHERE user_id = ?`; a no-op when the row does not exist. -/
def increment_requests (now : Nat) (uid : Nat) (store : Store) : Store :=
  store.map (fun r => if r.user_id == uid then bumpRow now r else r)

/-- `DatabaseManager.reset_daily_limits` (`main.py` lines 252-260): SQL
`UPDATE users SET daily_requests = 0` over every row. -/
def reset_daily_limits (store : Store) : Store :=
  store.map (fun r => { r with daily_requests := 0 })

/-! ### SmartTelegramBot -/

/-- The `self.limits` dict set by `setup_limits` (`main.py` lines 270-276). -/
structure Limits where
  free_daily_requests : Nat
  max_message_length : Nat
  request_timeout : Nat
deriving DecidableEq, Repr

/-- `SmartTelegramBot.setup_limits` values. -/
def setup_limits : Limits :=
  { free_daily_requests := 50, max_message_length := 4000, request_timeout := 30 }

/-- The `search_keywords` list of `detect_intent` (`main.py` lines 292-295). -/
def search_keywords : List Chars :=
  [ chars "چیست", chars "کیست", chars "کجاست", chars "اخبار", chars "قیمت",
    chars "چطور", chars "چگونه", chars "آموزش", chars "تعریف", chars "معنی",
    chars "علت", chars "دلیل", chars "نتایج", chars "تاریخ" ]

/-- The `image_keywords` list of `detect_intent` (`main.py` lines 298-301). -/
def image_keywords : List Chars :=
  [ chars "عکس", chars "تصویر", chars "عکس از", chars "تصویر از", chars "نقاشی",
    chars "رسم", chars "کارتون", chars "لوگو", chars "طرح", chars "پیکسل",
    chars "گرافیک" ]

/-- The three intent labels returned by `detect_intent`. -/
inductive Intent where
  | chat
  | search
  | image
deriving DecidableEq, Repr

/-- `SmartTelegramBot.detect_intent` (`main.py` lines 287-308): pure keyword
classification, search keywords checked before image keywords. -/
def detect_intent (text : Chars) : Intent :=
  let text_lower := pyLower text
  if search_keywords.any (fun k => containsSub k text_lower) then .search
  else if image_keywords.any (fun k => containsSub k text_lower) then .image
  else .chat

/-- The welcome text sent by `handle_start` (`main.py` lines 325-345). -/
def welcome_text : Chars :=
  chars "\n🤖 **به بات هوشمند رایگان خوش آمدید!**\n\n✨ **من می‌توانم:**\n• به سوالات شما پاسخ دهم 💬\n• در اینترنت جستجو کنم 🔍  \n• تصاویر ساده تولید کنم 🎨\n\n🆓 **این سرویس کاملاً رایگان است!**\n📊 **محدودیت: ۵۰ درخواست در روز**\n\n🎯 **کافیست سوال خود را بپرسید:**\n\nمثال‌ها:\n• «هوش مصنوعی چیست؟»\n• «اخبار تکنولوژی»\n• «عکس یک منظره»\n• «آموزش پایتون»\n\nاز گفتگو با شما خوشحالم! 😊\n        "

/-- The daily-limit-exceeded reply (`main.py` lines 419-424). -/
def limit_exceeded_reply : Chars :=
  chars "❌ **محدودیت روزانه به پایان رسید!**\n\nشما امروز ۵۰ درخواست خود را استفاده کرده‌اید.\n۲۴ ساعت دیگر مجدداً می‌توانید استفاده کنید.\n\n📊 برای مشاهده وضعیت: /status"

/-- The generic retry-suggesting reply of the pipeline's `except` block
(`main.py` lines 471-476). -/
def processing_error_reply : Chars :=
  chars "⚠️ **خطا در پردازش درخواست**\n\nلطفاً چند لحظه صبر کرده و دوباره تلاش کنید.\nاگر مشکل ادامه داشت، سوال خود را به صورت متفاوت بیان کنید.\n\n🔧 برای راهنمایی: /help"

/-- The fixed continuation notice appended after truncation
(`main.py` line 460). -/
def continuation_notice : Chars :=
  chars "\n\n💡 پاسخ کامل‌تر را می‌توانید با جستجوی جداگانه دریافت کنید."

/-- The Telegram-length guard of `handle_message` (`main.py` lines 458-460):
replies longer than `max_message_length` are cut to
`max_message_length - 100` characters plus the continuation notice. -/
def truncateResponse (response : Chars) : Chars :=
  if setup_limits.max_message_length < response.length then
    response.take (setup_limits.max_message_length - 100) ++ continuation_notice
  else response

/-- The caption of an image reply (`main.py` line 450). -/
def imageCaption (user_message : Chars) : Chars :=
  chars "🖼️ تصویر برای: " ++ user_message.take 50 ++ chars "..."

/-- The sender of an inbound update (`update.effective_user`). -/
structure TgUser where
  id : Nat
  username : Option Chars
  first_name : Option Chars
  last_name : Option Chars
deriving DecidableEq, Repr

/-- What the bot sends back for one inbound message. -/
inductive OutboundReply where
  /-- a `reply_text` call. -/
  | text (body : Chars)
  /-- a `send_photo` call (URL and caption); no text body is sent besides it. -/
  | photo (url : Chars) (caption : Chars)
  /-- no outbound send (empty adapter response). -/
  | silent
deriving DecidableEq, Repr

/-- External circumstances of one `handle_message` run: the store read
outcome, whether the outbound Telegram send inside the `try` block raises,
the two adapters' HTTP outcomes, the process's string hash, and the clock. -/
structure Env where
  readFails : Bool
  sendFails : Bool
  chatOutcome : ChatOutcome
  searchOutcome : SearchOutcome
  pyHash : Chars → Nat
  now : Nat

/-- The `user_data` dict built by `handle_start` (`main.py` lines 315-322):
profile fields from the update, both counters zero. -/
def startData (u : TgUser) : UserData :=
  { user_id := u.id, username := u.username, first_name := u.first_name,
    last_name := u.last_name, daily_requests := 0, total_requests := 0 }

/-- `SmartTelegramBot.handle_start` (`main.py` lines 310-347): upserts the
user with zero counters and replies with the welcome text. -/
def handle_start (now : Nat) (u : TgUser) (store : Store) : OutboundReply × Store :=
  (.text welcome_text, update_user now (startData u) store)

/-- Lines 456-465 of `handle_message` for a text (chat/search) response:
nothing is sent when the response string is falsy; otherwise the reply is
length-guarded and sent — if that send raises, the `except` block replies
with the generic error and `increment_requests` is never reached. -/
def sendTextStep (env : Env) (uid : Nat) (store : Store) (response : Chars) :
    OutboundReply × Store :=
  if response = [] then (.silent, increment_requests env.now uid store)
  else if env.sendFails then (.text processing_error_reply, store)
  else (.text (truncateResponse response), increment_requests env.now uid store)

/-- `SmartTelegramBot.handle_message` (`main.py` lines 406-476).  The
`send_chat_action` typing indicator (line 428) has no observable effect in
this model.  In the image branch the `send_photo` call sits inside the
`try`, so a raised send likewise lands in the `except` block with no
increment. -/
def handle_message (env : Env) (u : TgUser) (text : Chars) (store : Store) :
    OutboundReply × Store :=
  match get_user env.readFails store u.id with
  | none => handle_start env.now u store
  | some user_data =>
    if setup_limits.free_daily_requests ≤ user_data.daily_requests then
      (.text limit_exceeded_reply, store)
    else
      match detect_intent text with
      | .search =>
        sendTextStep env u.id store (web_search_duckduckgo env.searchOutcome text)
      | .image =>
        if env.sendFails then (.text processing_error_reply, store)
        else (.photo (generate_simple_image text) (imageCaption text),
              increment_requests env.now u.id store)
      | .chat =>
        sendTextStep env u.id store (query_llama_free env.pyHash env.chatOutcome text)

/-! ### Helper lemmas -/

theorem isPrefixOf_map (f : Char → Char) :
    ∀ n h : Chars, n.isPrefixOf h = true → (n.map f).isPrefixOf (h.map f) = true
  | [], _, _ => by simp [List.isPrefixOf]
  | _ :: _, [], hp => by simp [List.isPrefixOf] at hp
  | a :: as, b :: bs, hp => by
    simp only [List.isPrefixOf, Bool.and_eq_true, beq_iff_eq] at hp
    simp only [List.map_cons, List.isPrefixOf, Bool.and_eq_true, beq_iff_eq]
    exact ⟨by rw [hp.1], isPrefixOf_map f as bs hp.2⟩

theorem containsSub_map (f : Char → Char) (n : Chars) :
    ∀ h : Chars, containsSub n h = true → containsSub (n.map f) (h.map f) = true
  | [], hc => by
    unfold containsSub at hc
    rcases n with _ | ⟨c, cs⟩
    · rfl
    · simp [List.isEmpty] at hc
  | c :: rest, hc => by
    unfold containsSub at hc
    rcases Bool.or_eq_true_iff.mp hc with h1 | h2
    · have := isPrefixOf_map f n (c :: rest) h1
      unfold containsSub
      simp only [List.map_cons] at this ⊢
      rw [this, Bool.true_or]
    · have := containsSub_map f n rest h2
      unfold containsSub
      simp only [List.map_cons]
      rw [this, Bool.or_true]

theorem containsSub_pyLower {n p : Chars} (hfix : pyLower n = n)
    (h : containsSub n p = true) : containsSub n (pyLower p) = true := by
  have hm := containsSub_map Char.toLower n p h
  unfold pyLower at hfix ⊢
  rwa [hfix] at hm

theorem dbLookup_map_keyed (g : UserRecord → UserRecord)
    (hg : ∀ r, (g r).user_id = r.user_id) (store : Store) (uid : Nat) :
    dbLookup (store.map g) uid = (dbLookup store uid).map g := by
  unfold dbLookup
  rw [List.find?_map]
  have hpred : ((fun r : UserRecord => r.user_id == uid) ∘ g) =
      fun r : UserRecord => r.user_id == uid := by
    funext r
    simp [Function.comp, hg r]
  rw [hpred]

theorem dbLookup_increment_self (now uid : Nat) (store : Store) (r : UserRecord)
    (h : dbLookup store uid = some r) :
    dbLookup (increment_requests now uid store) uid = some (bumpRow now r) := by
  have hp : (r.user_id == uid) = true := by
    have hs := List.find?_some
      (show List.find? (fun x : UserRecord => x.user_id == uid) store = some r from h)
    simpa using hs
  unfold increment_requests
  rw [dbLookup_map_keyed _ (fun x => by
    by_cases hx : (x.user_id == uid) = true
    · simp [hx, bumpRow]
    · simp [hx])]
  rw [h]
  show some (if r.user_id == uid then bumpRow now r else r) = some (bumpRow now r)
  rw [if_pos hp]

theorem dbLookup_update_self (now : Nat) (d : UserData) (store : Store) :
    dbLookup (update_user now d store) d.user_id = some (replacedRow now d) := by
  unfold update_user
  by_cases hmem : store.any (fun r => r.user_id == d.user_id) = true
  · rw [if_pos hmem]
    rw [dbLookup_map_keyed _ (fun x => by
      by_cases hx : (x.user_id == d.user_id) = true
      · simp only [if_pos hx, replacedRow]
        exact (beq_iff_eq.mp hx).symm
      · simp [hx])]
    rcases List.any_eq_true.mp hmem with ⟨r0, hr0mem, hr0⟩
    cases hfind : dbLookup store d.user_id with
    | none =>
      exact absurd hr0 (by simpa using (List.find?_eq_none.mp hfind r0 hr0mem))
    | some r1 =>
      have hp1 : (r1.user_id == d.user_id) = true := by
        have hs := List.find?_some
          (show List.find? (fun x : UserRecord => x.user_id == d.user_id) store = some r1 from hfind)
        simpa using hs
      show some (if r1.user_id == d.user_id then replacedRow now d else r1) =
        some (replacedRow now d)
      rw [if_pos hp1]
  · rw [if_neg hmem]
    unfold dbLookup
    rw [List.find?_append]
    have hnone : store.find? (fun r => r.user_id == d.user_id) = none := by
      rw [List.find?_eq_none]
      intro x hx hpx
      exact hmem (List.any_eq_true.mpr ⟨x, hx, hpx⟩)
    rw [hnone]
    simp [List.find?, replacedRow]

/-- Quota invariant of the spec: daily count never exceeds the total count. -/
def storeInv (store : Store) : Prop :=
  ∀ r ∈ store, r.daily_requests ≤ r.total_requests

theorem storeInv_increment (now uid : Nat) (store : Store) (h : storeInv store) :
    storeInv (increment_requests now uid store) := by
  intro r hr
  unfold increment_requests at hr
  rcases List.mem_map.mp hr with ⟨x, hx, rfl⟩
  by_cases hb : (x.user_id == uid) = true
  · simp only [if_pos hb, bumpRow]
    exact Nat.succ_le_succ (h x hx)
  · simp only [if_neg hb]
    exact h x hx

theorem storeInv_update (now : Nat) (d : UserData) (store : Store)
    (hd : d.daily_requests ≤ d.total_requests) (h : storeInv store) :
    storeInv (update_user now d store) := by
  intro r hr
  unfold update_user at hr
  split at hr
  · rcases List.mem_map.mp hr with ⟨x, hx, rfl⟩
    by_cases hb : (x.user_id == d.user_id) = true
    · simp only [if_pos hb, replacedRow]
      exact hd
    · simp only [if_neg hb]
      exact h x hx
  · rcases List.mem_append.mp hr with hx | hx
    · exact h r hx
    · have : r = replacedRow now d := by simpa using hx
      rw [this]
      exact hd

theorem storeInv_reset (store : Store) (_h : storeInv store) :
    storeInv (reset_daily_limits store) := by
  intro r hr
  unfold reset_daily_limits at hr
  rcases List.mem_map.mp hr with ⟨x, _, rfl⟩
  exact Nat.zero_le _

theorem storeInv_handle_start (now : Nat) (u : TgUser) (store : Store)
    (h : storeInv store) : storeInv (handle_start now u store).2 :=
  storeInv_update now (startData u) store (Nat.le_refl 0) h

theorem handle_message_store_shape (env : Env) (u : TgUser) (text : Chars)
    (store : Store) :
    (handle_message env u text store).2 = store ∨
    (handle_message env u text store).2 = increment_requests env.now u.id store ∨
    (handle_message env u text store).2 = update_user env.now (startData u) store := by
  unfold handle_message handle_start sendTextStep
  cases get_user env.readFails store u.id with
  | none => exact Or.inr (Or.inr rfl)
  | some user_data =>
    dsimp only
    split
    · exact Or.inl rfl
    · cases detect_intent text <;> dsimp only
      · split
        · exact Or.inr (Or.inl rfl)
        · split
          · exact Or.inl rfl
          · exact Or.inr (Or.inl rfl)
      · split
        · exact Or.inr (Or.inl rfl)
        · split
          · exact Or.inl rfl
          · exact Or.inr (Or.inl rfl)
      · split
        · exact Or.inl rfl
        · exact Or.inr (Or.inl rfl)

theorem storeInv_handle_message (env : Env) (u : TgUser) (text : Chars)
    (store : Store) (h : storeInv store) :
    storeInv (handle_message env u text store).2 := by
  rcases handle_message_store_shape env u text store with hs | hs | hs <;> rw [hs]
  · exact h
  · exact storeInv_increment _ _ _ h
  · exact storeInv_update _ _ _ (Nat.le_refl 0) h

/-! ### Claims -/

/-- C1: whenever the stored record of the sender has `daily_requests` at or
above the configured daily limit (50), `handle_message` on a text message
returns the limit-exceeded reply and stops: the store — hence both
`daily_requests` and `total_requests` of every user — is unchanged, so
`increment_requests` was not performed. -/
theorem claim_C1 (env : Env) (u : TgUser) (text : Chars) (store : Store)
    (user_data : UserRecord)
    (hget : get_user env.readFails store u.id = some user_data)
    (hlim : setup_limits.free_daily_requests ≤ user_data.daily_requests) :
    handle_message env u text store = (.text limit_exceeded_reply, store) := by
  unfold handle_message
  rw [hget]
  exact if_pos hlim

/-- C1 witness: a concrete user at exactly the limit (50 of 50) is turned
away with the limit reply and an unchanged store. -/
theorem claim_C1_witness :
    handle_message ⟨false, false, .exn, .exn, fun _ => 0, 7⟩ ⟨1, none, none, none⟩
        (chars "سلام") [⟨1, none, none, none, 50, 60, 3, 4⟩]
      = (.text limit_exceeded_reply, [⟨1, none, none, none, 50, 60, 3, 4⟩]) :=
  claim_C1 _ _ _ _ ⟨1, none, none, none, 50, 60, 3, 4⟩ (by decide) (by decide)

/-- C6: `detect_intent` lower-cases the text and returns `search` when any
search keyword occurs as a substring, else `image` when any image keyword
occurs, else `chat`; in particular a text matching both keyword sets
classifies as `search` (search keywords are checked first).  The function
is total, deterministic and side-effect free by construction. -/
theorem claim_C6 (text : Chars) :
    (search_keywords.any (fun k => containsSub k (pyLower text)) = true →
      detect_intent text = .search)
    ∧ (search_keywords.any (fun k => containsSub k (pyLower text)) = false →
        image_keywords.any (fun k => containsSub k (pyLower text)) = true →
        detect_intent text = .image)
    ∧ (search_keywords.any (fun k => containsSub k (pyLower text)) = false →
        image_keywords.any (fun k => containsSub k (pyLower text)) = false →
        detect_intent text = .chat) := by
  refine ⟨fun hs => ?_, fun hs hi => ?_, fun hs hi => ?_⟩
  · unfold detect_intent
    rw [if_pos hs]
  · unfold detect_intent
    rw [if_neg (by simp [hs]), if_pos hi]
  · unfold detect_intent
    rw [if_neg (by simp [hs]), if_neg (by simp [hi])]

/-- C6 witness: a message containing both the search keyword «اخبار» and the
image keyword «عکس» classifies as `search`; a pure image request classifies
as `image`; small talk classifies as `chat`. -/
theorem claim_C6_witness :
    detect_intent (chars "اخبار و عکس") = .search
    ∧ detect_intent (chars "عکس یک منظره") = .image
    ∧ detect_intent (chars "هی چه خبر") = .chat :=
  ⟨(claim_C6 (chars "اخبار و عکس")).1 (by decide),
   (claim_C6 (chars "عکس یک منظره")).2.1 (by decide) (by decide),
   (claim_C6 (chars "هی چه خبر")).2.2 (by decide) (by decide)⟩

/-- C5: `fallback_chat` is a deterministic function of the prompt for a
fixed process hash: equal prompts yield equal replies; a prompt containing
the greeting trigger «سلام» always yields the greeting canned reply (it is
the first key checked); and when no canned-response key matches, the
generic reply is chosen by the hash of the prompt modulo the length of the
generic-response list. -/
theorem claim_C5 (pyHash : Chars → Nat) (prompt : Chars) :
    (∀ prompt2, prompt2 = prompt →
      fallback_chat pyHash prompt2 = fallback_chat pyHash prompt)
    ∧ (containsSub (chars "سلام") prompt = true →
        fallback_chat pyHash prompt =
          chars "سلام! به بات هوشمند خوش آمدید! 🤖\nچگونه می‌توانم کمک کنم؟")
    ∧ (responses.all (fun kv => !containsSub kv.1 (pyLower prompt)) = true →
        fallback_chat pyHash prompt =
          general_responses.getD (pyHash prompt % general_responses.length) []) := by
  refine ⟨fun _ h => by rw [h], fun hg => ?_, fun hnone => ?_⟩
  · have hlow : containsSub (chars "سلام") (pyLower prompt) = true :=
      containsSub_pyLower (by decide) hg
    have hfind : responses.find? (fun kv => containsSub kv.1 (pyLower prompt)) =
        some (chars "سلام",
          chars "سلام! به بات هوشمند خوش آمدید! 🤖\nچگونه می‌توانم کمک کنم؟") := by
      rw [responses]
      exact List.find?_cons_of_pos _ hlow
    show (match responses.find? (fun kv => containsSub kv.1 (pyLower prompt)) with
      | some kv => kv.2
      | none => general_responses.getD (pyHash prompt % general_responses.length) []) = _
    rw [hfind]
  · have hfind : responses.find?
        (fun kv => containsSub kv.1 (pyLower prompt)) = none := by
      rw [List.find?_eq_none]
      intro kv hkv hp
      have := List.all_eq_true.mp hnone kv hkv
      rw [hp] at this
      simp at this
    show (match responses.find? (fun kv => containsSub kv.1 (pyLower prompt)) with
      | some kv => kv.2
      | none => general_responses.getD (pyHash prompt % general_responses.length) []) = _
    rw [hfind]

/-- C5 witness: the prompt «سلام ربات» contains the greeting trigger, so for
any process hash (here the constant-zero one) the fallback is the greeting
canned reply, and equal prompts map to equal replies. -/
theorem claim_C5_witness :
    fallback_chat (fun _ => 0) (chars "سلام ربات") =
      chars "سلام! به بات هوشمند خوش آمدید! 🤖\nچگونه می‌توانم کمک کنم؟" :=
  (claim_C5 (fun _ => 0) (chars "سلام ربات")).2.1 (by decide)

/-- C9: `reset_daily_limits` preserves the number of rows, and rewrites each
row to have `daily_requests = 0` while leaving `total_requests`, `user_id`,
`username`, the names, `created_at` and `last_active` untouched. -/
theorem claim_C9 (store : Store) :
    (reset_daily_limits store).length = store.length
    ∧ ∀ (i : Nat) (r : UserRecord), store[i]? = some r →
        ∃ r' : UserRecord, (reset_daily_limits store)[i]? = some r'
          ∧ r'.daily_requests = 0
          ∧ r'.total_requests = r.total_requests
          ∧ r'.user_id = r.user_id
          ∧ r'.username = r.username
          ∧ r'.first_name = r.first_name
          ∧ r'.last_name = r.last_name
          ∧ r'.created_at = r.created_at
          ∧ r'.last_active = r.last_active := by
  constructor
  · unfold reset_daily_limits
    exact List.length_map _ _
  · intro i r h
    refine ⟨{ r with daily_requests := 0 }, ?_, rfl, rfl, rfl, rfl, rfl, rfl, rfl, rfl⟩
    unfold reset_daily_limits
    rw [List.getElem?_map, h]
    rfl

/-- C9 witness: resetting a concrete two-row store zeroes both daily counts
and keeps every other field. -/
theorem claim_C9_witness :
    (reset_daily_limits [⟨1, none, none, none, 30, 40, 3, 4⟩,
        ⟨2, some (chars "bob"), none, none, 50, 50, 5, 6⟩]).length = 2
    ∧ (reset_daily_limits [⟨1, none, none, none, 30, 40, 3, 4⟩,
        ⟨2, some (chars "bob"), none, none, 50, 50, 5, 6⟩])[1]? =
        some ⟨2, some (chars "bob"), none, none, 0, 50, 5, 6⟩ := by
  have h := claim_C9 [⟨1, none, none, none, 30, 40, 3, 4⟩,
      ⟨2, some (chars "bob"), none, none, 50, 50, 5, 6⟩]
  refine ⟨h.1, ?_⟩
  rcases h.2 1 ⟨2, some (chars "bob"), none, none, 50, 50, 5, 6⟩ (by decide)
    with ⟨r', hr', h0, ht, hid, hu, hf, hl, hc, ha⟩
  rw [hr']
  have : r' = ⟨2, some (chars "bob"), none, none, 0, 50, 5, 6⟩ := by
    cases r'
    simp_all
  rw [this]

/-- C10: `get_user` collapses row absence and a failed storage read into the
same `none` answer, so callers cannot distinguish the two; consequently
`handle_message` treats an existing user whose read failed as brand new,
routes them through the `/start` handler, and their stored counters are
rewritten to 0. -/
theorem claim_C10 (store : Store) (uid : Nat) :
    (get_user true store uid = none)
    ∧ (dbLookup store uid = none → get_user false store uid = none)
    ∧ (∀ env u text r, env.readFails = true → u.id = uid →
        dbLookup store uid = some r →
        (handle_message env u text store).1 = .text welcome_text
        ∧ ∃ r', dbLookup (handle_message env u text store).2 uid = some r'
            ∧ r'.daily_requests = 0 ∧ r'.total_requests = 0) := by
  refine ⟨rfl, fun h => by simpa [get_user] using h, fun env u text r hf hu _hr => ?_⟩
  have hmsg : handle_message env u text store = handle_start env.now u store := by
    unfold handle_message
    rw [show get_user env.readFails store u.id = none from by rw [hf]; rfl]
  rw [hmsg]
  subst hu
  refine ⟨rfl, replacedRow env.now (startData u), ?_, rfl, rfl⟩
  have := dbLookup_update_self env.now (startData u) store
  simpa [startData, handle_start] using this

/-- C10 witness: with a failing read, an existing user (30 daily, 40 total)
who sends a plain text message gets the welcome reply and their counters
are rewritten to 0/0. -/
theorem claim_C10_witness :
    (get_user true [(⟨1, none, none, none, 30, 40, 3, 4⟩ : UserRecord)] 1 = none)
    ∧ (handle_message ⟨true, false, .exn, .exn, fun _ => 0, 7⟩ ⟨1, none, none, none⟩
        (chars "سلام") [⟨1, none, none, none, 30, 40, 3, 4⟩]).1 = .text welcome_text := by
  have h := claim_C10 [(⟨1, none, none, none, 30, 40, 3, 4⟩ : UserRecord)] 1
  refine ⟨h.1, ?_⟩
  exact (h.2.2 ⟨true, false, .exn, .exn, fun _ => 0, 7⟩ ⟨1, none, none, none⟩
    (chars "سلام") ⟨1, none, none, none, 30, 40, 3, 4⟩ rfl rfl (by decide)).1

theorem handle_message_store_found (env : Env) (u : TgUser) (text : Chars)
    (store : Store) (r : UserRecord)
    (hf : env.readFails = false) (hl : dbLookup store u.id = some r) :
    (handle_message env u text store).2 = store ∨
    (handle_message env u text store).2 = increment_requests env.now u.id store := by
  have hget : get_user env.readFails store u.id = some r := by
    rw [hf]; exact hl
  unfold handle_message sendTextStep
  rw [hget]
  dsimp only
  split
  · exact Or.inl rfl
  · cases detect_intent text <;> dsimp only
    · split
      · exact Or.inr rfl
      · split
        · exact Or.inl rfl
        · exact Or.inr rfl
    · split
      · exact Or.inr rfl
      · split
        · exact Or.inl rfl
        · exact Or.inr rfl
    · split
      · exact Or.inl rfl
      · exact Or.inr rfl

/-- C2 counterexample: the `/start` command on an existing user record with
30 daily and 40 total requests overwrites it with the zero-counter record —
a user action resets `daily_requests` to 0 (30 was nonzero) and decreases
`total_requests` (from 40 to 0), contradicting the claim. -/
theorem claim_C2_counterexample :
    dbLookup (handle_start 7 ⟨1, none, none, none⟩
        [⟨1, none, none, none, 30, 40, 3, 4⟩]).2 1 =
      some ⟨1, none, none, none, 0, 0, 7, 7⟩
    ∧ (30 : Nat) ≠ 0 ∧ (0 : Nat) < 40 := by decide

/-- C2 (amended): every operation — `handle_message`, `handle_start`,
`increment_requests`, `reset_daily_limits` — preserves the invariant
`daily_requests ≤ total_requests`; message handling with a successful store
read never resets the sender's `daily_requests` or decreases their
`total_requests`; but the `/start` handler overwrites the sender's record
with both counters 0, so that particular user action can zero the daily
count and decrease the total count. -/
theorem claim_C2_amended :
    (∀ env u text store, storeInv store → storeInv (handle_message env u text store).2)
    ∧ (∀ now u store, storeInv store → storeInv (handle_start now u store).2)
    ∧ (∀ now uid store, storeInv store → storeInv (increment_requests now uid store))
    ∧ (∀ store, storeInv store → storeInv (reset_daily_limits store))
    ∧ (∀ env u text store r, env.readFails = false →
        dbLookup store u.id = some r →
        ∃ r' : UserRecord, dbLookup (handle_message env u text store).2 u.id = some r'
          ∧ r.daily_requests ≤ r'.daily_requests
          ∧ r.total_requests ≤ r'.total_requests)
    ∧ (∀ now u store, dbLookup (handle_start now u store).2 u.id =
        some (replacedRow now (startData u))) := by
  refine ⟨storeInv_handle_message, storeInv_handle_start, storeInv_increment,
    storeInv_reset, fun env u text store r hf hl => ?_, fun now u store => ?_⟩
  · rcases handle_message_store_found env u text store r hf hl with hs | hs <;> rw [hs]
    · exact ⟨r, hl, Nat.le_refl _, Nat.le_refl _⟩
    · exact ⟨bumpRow env.now r, dbLookup_increment_self env.now u.id store r hl,
        Nat.le_succ _, Nat.le_succ _⟩
  · exact dbLookup_update_self now (startData u) store

/-- C2 (amended) witness: on a concrete store (user 1 at 30/40) an ordinary
message preserves the invariant and does not shrink either counter. -/
theorem claim_C2_amended_witness :
    storeInv (handle_message ⟨false, false, .exn, .exn, fun _ => 0, 7⟩
        ⟨1, none, none, none⟩ (chars "سلام") [⟨1, none, none, none, 30, 40, 3, 4⟩]).2
    ∧ ∃ r' : UserRecord,
        dbLookup (handle_message ⟨false, false, .exn, .exn, fun _ => 0, 7⟩
          ⟨1, none, none, none⟩ (chars "سلام")
          [⟨1, none, none, none, 30, 40, 3, 4⟩]).2 1 = some r'
        ∧ 30 ≤ r'.daily_requests ∧ 40 ≤ r'.total_requests :=
  ⟨claim_C2_amended.1 ⟨false, false, .exn, .exn, fun _ => 0, 7⟩ ⟨1, none, none, none⟩
      (chars "سلام") [⟨1, none, none, none, 30, 40, 3, 4⟩]
      (by unfold storeInv; decide),
   claim_C2_amended.2.2.2.2.1 ⟨false, false, .exn, .exn, fun _ => 0, 7⟩
      ⟨1, none, none, none⟩ (chars "سلام") [⟨1, none, none, none, 30, 40, 3, 4⟩]
      ⟨1, none, none, none, 30, 40, 3, 4⟩ rfl (by decide)⟩

/-- C3 counterexample: the very first message of an unknown user — here
«قیمت دلار», which classifies as a search request — is answered with the
welcome text and is NOT processed: the fresh record keeps zero counters
(processing would have incremented them) and the reply is not the reply the
search dispatch would have produced, so record creation does replace
processing of that message. -/
theorem claim_C3_counterexample :
    detect_intent (chars "قیمت دلار") = .search
    ∧ handle_message ⟨false, false, .exn, .http 200 ⟨some (chars "abc"), []⟩, fun _ => 0, 7⟩
        ⟨1, none, none, none⟩ (chars "قیمت دلار") [] =
      (.text welcome_text, [⟨1, none, none, none, 0, 0, 7, 7⟩])
    ∧ OutboundReply.text welcome_text ≠
        .text (truncateResponse (web_search_duckduckgo (.http 200 ⟨some (chars "abc"), []⟩)
          (chars "قیمت دلار"))) := by
  refine ⟨by decide, by decide, by decide⟩

/-- C3 (amended): `handle_message` does ensure a record exists — when the
sender has no record (or the read failed), it delegates to the `/start`
handler, which creates the record with zero counters and replies with the
welcome text; but that first message is not classified or dispatched.
A message from a user with an existing record and remaining quota is
classified and dispatched to its matching adapter and counted: a
search-intent message is answered with the length-guarded search-adapter
output, a chat-intent message with the length-guarded chat-adapter output,
an image-intent message with the generated image URL plus caption; an
empty adapter output sends no reply but the request is still counted. -/
theorem claim_C3_amended :
    (∀ env u text store, get_user env.readFails store u.id = none →
      handle_message env u text store =
        (.text welcome_text, update_user env.now (startData u) store)
      ∧ dbLookup (update_user env.now (startData u) store) u.id =
          some (replacedRow env.now (startData u))
      ∧ (replacedRow env.now (startData u)).daily_requests = 0
      ∧ (replacedRow env.now (startData u)).total_requests = 0)
    ∧ (∀ env u text store r, env.readFails = false →
        dbLookup store u.id = some r →
        r.daily_requests < setup_limits.free_daily_requests →
        env.sendFails = false →
        (detect_intent text = .search →
          web_search_duckduckgo env.searchOutcome text ≠ [] →
          handle_message env u text store =
            (.text (truncateResponse (web_search_duckduckgo env.searchOutcome text)),
             increment_requests env.now u.id store))
        ∧ (detect_intent text = .chat →
            query_llama_free env.pyHash env.chatOutcome text ≠ [] →
            handle_message env u text store =
              (.text (truncateResponse (query_llama_free env.pyHash env.chatOutcome text)),
               increment_requests env.now u.id store))
        ∧ (detect_intent text = .image →
            handle_message env u text store =
              (.photo (generate_simple_image text) (imageCaption text),
               increment_requests env.now u.id store)))
    ∧ (∀ env u text store r, env.readFails = false →
        dbLookup store u.id = some r →
        r.daily_requests < setup_limits.free_daily_requests →
        ((detect_intent text = .search ∧ web_search_duckduckgo env.searchOutcome text = [])
          ∨ (detect_intent text = .chat ∧
              query_llama_free env.pyHash env.chatOutcome text = [])) →
        handle_message env u text store =
          (.silent, increment_requests env.now u.id store)) := by
  refine ⟨?_, ?_, ?_⟩
  · intro env u text store hget
    refine ⟨?_, dbLookup_update_self env.now (startData u) store, rfl, rfl⟩
    unfold handle_message
    rw [hget]
    rfl
  · intro env u text store r hf hl hq hsend
    have hget : get_user env.readFails store u.id = some r := by
      rw [hf]; exact hl
    refine ⟨fun hintent hne => ?_, fun hintent hne => ?_, fun hintent => ?_⟩
    · unfold handle_message sendTextStep
      rw [hget]
      dsimp only
      rw [if_neg (Nat.not_le.mpr hq), hintent]
      dsimp only
      rw [if_neg hne, if_neg (by rw [hsend]; exact Bool.false_ne_true)]
    · unfold handle_message sendTextStep
      rw [hget]
      dsimp only
      rw [if_neg (Nat.not_le.mpr hq), hintent]
      dsimp only
      rw [if_neg hne, if_neg (by rw [hsend]; exact Bool.false_ne_true)]
    · unfold handle_message
      rw [hget]
      dsimp only
      rw [if_neg (Nat.not_le.mpr hq), hintent]
      dsimp only
      rw [if_neg (by rw [hsend]; exact Bool.false_ne_true)]
  · intro env u text store r hf hl hq hcase
    have hget : get_user env.readFails store u.id = some r := by
      rw [hf]; exact hl
    unfold handle_message sendTextStep
    rw [hget]
    dsimp only
    rw [if_neg (Nat.not_le.mpr hq)]
    rcases hcase with ⟨hintent, hempty⟩ | ⟨hintent, hempty⟩ <;> rw [hintent] <;>
      dsimp only <;> rw [if_pos hempty]

/-- C3 (amended) witness: a fresh store gets the welcome reply with a
zero-counter record; the same message from that now-known user is then
dispatched to the search adapter and counted; and a concrete image-intent
message from a known user is answered with the photo reply and counted. -/
theorem claim_C3_amended_witness :
    handle_message ⟨false, false, .exn, .http 200 ⟨some (chars "abc"), []⟩, fun _ => 0, 7⟩
        ⟨1, none, none, none⟩ (chars "قیمت دلار") [] =
      (.text welcome_text, [⟨1, none, none, none, 0, 0, 7, 7⟩])
    ∧ handle_message ⟨false, false, .exn, .http 200 ⟨some (chars "abc"), []⟩, fun _ => 0, 7⟩
        ⟨1, none, none, none⟩ (chars "قیمت دلار") [⟨1, none, none, none, 0, 0, 7, 7⟩] =
      (.text (truncateResponse (web_search_duckduckgo (.http 200 ⟨some (chars "abc"), []⟩)
          (chars "قیمت دلار"))),
       increment_requests 7 1 [⟨1, none, none, none, 0, 0, 7, 7⟩])
    ∧ handle_message ⟨false, false, .exn, .exn, fun _ => 0, 7⟩ ⟨1, none, none, none⟩
        (chars "عکس گربه") [⟨1, none, none, none, 0, 0, 3, 4⟩] =
      (.photo (generate_simple_image (chars "عکس گربه")) (imageCaption (chars "عکس گربه")),
       increment_requests 7 1 [⟨1, none, none, none, 0, 0, 3, 4⟩]) :=
  ⟨(claim_C3_amended.1 ⟨false, false, .exn, .http 200 ⟨some (chars "abc"), []⟩, fun _ => 0, 7⟩
      ⟨1, none, none, none⟩ (chars "قیمت دلار") [] (by decide)).1,
   (claim_C3_amended.2.1 ⟨false, false, .exn, .http 200 ⟨some (chars "abc"), []⟩, fun _ => 0, 7⟩
      ⟨1, none, none, none⟩ (chars "قیمت دلار") [⟨1, none, none, none, 0, 0, 7, 7⟩]
      ⟨1, none, none, none, 0, 0, 7, 7⟩ rfl (by decide) (by decide) rfl).1
      (by decide) (by decide),
   (claim_C3_amended.2.1 ⟨false, false, .exn, .exn, fun _ => 0, 7⟩
      ⟨1, none, none, none⟩ (chars "عکس گربه") [⟨1, none, none, none, 0, 0, 3, 4⟩]
      ⟨1, none, none, none, 0, 0, 3, 4⟩ rfl (by decide) (by decide) rfl).2.2
      (by decide)⟩

/-- C4 counterexample: the platform maximum configured by `setup_limits` is
4000, not 2000, so on a 5000-character adapter reply the outbound text keeps
the first 3900 characters before the notice — not 1900 as the claim's
scenario states. -/
theorem claim_C4_counterexample :
    setup_limits.max_message_length ≠ 2000
    ∧ truncateResponse (List.replicate 5000 'a') ≠
        List.replicate 1900 'a' ++ continuation_notice := by
  refine ⟨by decide, fun h => ?_⟩
  have hlen := congrArg List.length h
  rw [truncateResponse, if_pos (by rw [List.length_replicate]; decide)] at hlen
  rw [List.length_append, List.length_take, List.length_replicate,
    List.length_append, List.length_replicate,
    show setup_limits.max_message_length = 4000 from rfl] at hlen
  omega

/-- C4 (amended): the configured maximum is 4000; a reply of at most 4000
characters is sent unchanged; a longer reply is cut to exactly the first
`4000 - 100 = 3900` characters plus the fixed continuation notice (so a
5000-character adapter reply becomes 3900 characters plus the notice); and
on the chat path the pipeline sends exactly the length-guarded adapter
output. -/
theorem claim_C4_amended :
    setup_limits.max_message_length = 4000
    ∧ (∀ response : Chars, response.length ≤ 4000 → truncateResponse response = response)
    ∧ (∀ response : Chars, 4000 < response.length →
        truncateResponse response = response.take 3900 ++ continuation_notice)
    ∧ truncateResponse (List.replicate 5000 'a') =
        List.replicate 3900 'a' ++ continuation_notice
    ∧ (∀ env u text store r, env.readFails = false →
        dbLookup store u.id = some r →
        r.daily_requests < setup_limits.free_daily_requests →
        env.sendFails = false →
        detect_intent text = .chat →
        query_llama_free env.pyHash env.chatOutcome text ≠ [] →
        (handle_message env u text store).1 =
          .text (truncateResponse (query_llama_free env.pyHash env.chatOutcome text))) := by
  refine ⟨rfl, fun response hle => ?_, fun response hgt => ?_, ?_,
    fun env u text store r hf hl hq hsend hintent hne => ?_⟩
  · rw [truncateResponse,
      if_neg (by rw [show setup_limits.max_message_length = 4000 from rfl]; omega)]
  · rw [truncateResponse,
      if_pos (by rw [show setup_limits.max_message_length = 4000 from rfl]; omega),
      show setup_limits.max_message_length - 100 = 3900 from rfl]
  · rw [truncateResponse, if_pos (by rw [List.length_replicate]; decide),
      List.take_replicate,
      show min (setup_limits.max_message_length - 100) 5000 = 3900 by decide]
  · have hget : get_user env.readFails store u.id = some r := by
      rw [hf]; exact hl
    unfold handle_message sendTextStep
    rw [hget]
    dsimp only
    rw [if_neg (Nat.not_le.mpr hq), hintent]
    dsimp only
    rw [if_neg hne, if_neg (by rw [hsend]; exact Bool.false_ne_true)]

/-- C4 (amended) witness: a short reply passes unchanged; the concrete
5000-character scenario yields 3900 characters plus the notice; and a
concrete chat message is answered with the guarded adapter output. -/
theorem claim_C4_amended_witness :
    truncateResponse (chars "hi") = chars "hi"
    ∧ truncateResponse (List.replicate 5000 'a') =
        List.replicate 3900 'a' ++ continuation_notice
    ∧ (handle_message ⟨false, false, .http 200 (.list0 (some (chars "hello"))), .exn,
          fun _ => 0, 7⟩ ⟨1, none, none, none⟩ (chars "hey")
          [⟨1, none, none, none, 0, 0, 3, 4⟩]).1 =
        .text (truncateResponse (query_llama_free (fun _ => 0)
          (.http 200 (.list0 (some (chars "hello")))) (chars "hey"))) :=
  ⟨claim_C4_amended.2.1 (chars "hi") (by decide),
   claim_C4_amended.2.2.2.1,
   claim_C4_amended.2.2.2.2 ⟨false, false, .http 200 (.list0 (some (chars "hello"))), .exn,
      fun _ => 0, 7⟩ ⟨1, none, none, none⟩ (chars "hey")
      [⟨1, none, none, none, 0, 0, 3, 4⟩] ⟨1, none, none, none, 0, 0, 3, 4⟩
      rfl (by decide) (by decide) rfl (by decide) (by decide)⟩

/-- C8: for a message that passed the quota gate, when the outbound send of
the reply raises an exception (the `reply_text` of a non-empty chat/search
reply, or the `send_photo` of an image reply), the pipeline-level `except`
block converts it into the generic retry-suggesting reply and
`increment_requests` is never executed: the store — both counters of every
user — is unchanged. -/
theorem claim_C8 (env : Env) (u : TgUser) (text : Chars) (store : Store)
    (r : UserRecord)
    (hget : get_user env.readFails store u.id = some r)
    (hq : r.daily_requests < setup_limits.free_daily_requests)
    (hsend : env.sendFails = true)
    (hs : detect_intent text = .image
      ∨ (detect_intent text = .search ∧ web_search_duckduckgo env.searchOutcome text ≠ [])
      ∨ (detect_intent text = .chat ∧ query_llama_free env.pyHash env.chatOutcome text ≠ [])) :
    handle_message env u text store = (.text processing_error_reply, store) := by
  unfold handle_message sendTextStep
  rw [hget]
  dsimp only
  rw [if_neg (Nat.not_le.mpr hq)]
  rcases hs with h | ⟨h, hne⟩ | ⟨h, hne⟩ <;> rw [h] <;> dsimp only
  · rw [if_pos hsend]
  · rw [if_neg hne, if_pos hsend]
  · rw [if_neg hne, if_pos hsend]

/-- C8 witness: a concrete chat message under quota whose reply send raises
gets the generic error reply and the store is untouched. -/
theorem claim_C8_witness :
    handle_message ⟨false, true, .exn, .exn, fun _ => 0, 7⟩ ⟨1, none, none, none⟩
        (chars "سلام") [⟨1, none, none, none, 30, 40, 3, 4⟩] =
      (.text processing_error_reply, [⟨1, none, none, none, 30, 40, 3, 4⟩]) :=
  claim_C8 ⟨false, true, .exn, .exn, fun _ => 0, 7⟩ ⟨1, none, none, none⟩
    (chars "سلام") [⟨1, none, none, none, 30, 40, 3, 4⟩]
    ⟨1, none, none, none, 30, 40, 3, 4⟩ (by decide) (by decide) rfl
    (Or.inr (Or.inr ⟨by decide, by decide⟩))

/-- C7 counterexample: a related topic carrying only a `FirstURL` (no
`Text`) contributes its URL to the reply untruncated, so the snippet lines
are not individually length-bounded: with a 300-character URL the snippet
line is 303 characters, beyond the 200-character budget applied to `Text`
snippets (202 bullet-and-newline included). -/
theorem claim_C7_counterexample :
    web_search_duckduckgo
        (.http 200 ⟨none, [⟨none, some (List.replicate 300 'u')⟩]⟩) (chars "q")
      = chars "🔍 **موضوعات مرتبط با \x27q\x27:**\n\n• " ++
          List.replicate 300 'u' ++ chars "\n"
    ∧ (topicLine ⟨none, some (List.replicate 300 'u')⟩).length = 303
    ∧ 200 < 303 := by
  refine ⟨by decide, by decide, by decide⟩

/-- C7 (amended): on HTTP 200, a present non-empty abstract yields the
search header plus the abstract truncated to 1000 characters; otherwise,
with non-empty `RelatedTopics`, the reply is the topics header extended by
the lines of at most the first two topics, where a line built from a `Text`
field is individually bounded by 203 characters but a line built from
`FirstURL` is appended untruncated; with neither, the explicit no-results
message is returned; a raised transport exception yields the
search-unavailable message; and a non-200 status yields the distinct
search-error message. -/
theorem claim_C7_amended :
    (∀ (q a : Chars) (r : List DDGTopic), a ≠ [] →
      web_search_duckduckgo (.http 200 ⟨some a, r⟩) q =
        chars "🔍 **نتایج جستجو برای \x27" ++ q ++ chars "\x27:**\n\n" ++ a.take 1000
      ∧ (a.take 1000).length ≤ 1000)
    ∧ (∀ (q : Chars) (a : Option Chars) (ts : List DDGTopic),
        a.getD [] = [] → ts ≠ [] →
        web_search_duckduckgo (.http 200 ⟨a, ts⟩) q =
          (ts.take 2).foldl (fun acc t => acc ++ topicLine t)
            (chars "🔍 **موضوعات مرتبط با \x27" ++ q ++ chars "\x27:**\n\n")
        ∧ (ts.take 2).length ≤ 2)
    ∧ (∀ (t : DDGTopic) (txt : Chars), t.text? = some txt →
        (topicLine t).length ≤ 203)
    ∧ (∀ (q : Chars) (a : Option Chars), a.getD [] = [] →
        web_search_duckduckgo (.http 200 ⟨a, []⟩) q =
          chars "❌ هیچ نتیجه‌ای برای \x27" ++ q ++
            chars "\x27 یافت نشد.\n\n💡 سوال خود را به صورت متفاوت بیان کنید.")
    ∧ (∀ q : Chars, web_search_duckduckgo .exn q =
        chars "⚠️ سرویس جستجو موقتاً در دسترس نیست.\n\n💡 لطفاً کمی بعد تلاش کنید.")
    ∧ (∀ (q : Chars) (status : Nat) (result : DDGResult), status ≠ 200 →
        web_search_duckduckgo (.http status result) q =
          chars "⚠️ خطا در انجام جستجو.") := by
  refine ⟨fun q a r ha => ?_, fun q a ts ha hts => ?_, fun t txt ht => ?_,
    fun q a ha => ?_, fun _ => rfl, fun q status result hstatus => ?_⟩
  · constructor
    · unfold web_search_duckduckgo
      dsimp only
      rw [if_pos (show (Option.some a).getD [] ≠ [] from ha)]
      rfl
    · rw [List.length_take]
      omega
  · constructor
    · unfold web_search_duckduckgo
      dsimp only
      rw [if_neg (show ¬a.getD [] ≠ [] from fun hc => hc ha),
        if_pos (show ts ≠ [] from hts)]
      rfl
    · rcases ts with _ | ⟨t1, _ | ⟨t2, rest⟩⟩ <;> simp [List.take]
  · unfold topicLine
    rw [ht]
    rw [List.length_append, List.length_append, List.length_take,
      show (chars "• ").length = 2 from rfl, show (chars "\n").length = 1 from rfl]
    omega
  · unfold web_search_duckduckgo
    dsimp only
    rw [if_neg (show ¬a.getD [] ≠ [] from fun hc => hc ha),
      if_neg (show ¬([] : List DDGTopic) ≠ [] from fun hc => hc rfl)]
    rfl
  · unfold web_search_duckduckgo
    dsimp only
    rw [if_neg (show ¬((status == 200) = true) from by
      simp only [beq_iff_eq]
      exact hstatus)]

/-- C7 (amended) witness: a concrete 200 response with a non-empty abstract
is truncated to the 1000-character budget; a topics-only response keeps at
most two lines; a `Text` snippet line stays within its bound; an empty
response yields the no-results message; an exception yields the unavailable
message; a 503 yields the search-error message. -/
theorem claim_C7_amended_witness :
    web_search_duckduckgo (.http 200 ⟨some (chars "abc"), []⟩) (chars "q") =
      chars "🔍 **نتایج جستجو برای \x27" ++ chars "q" ++ chars "\x27:**\n\n" ++
        (chars "abc").take 1000
    ∧ ([(⟨some (chars "t1"), none⟩ : DDGTopic), ⟨some (chars "t2"), none⟩,
        ⟨some (chars "t3"), none⟩].take 2).length ≤ 2
    ∧ (topicLine ⟨some (chars "t1"), none⟩).length ≤ 203
    ∧ web_search_duckduckgo (.http 200 ⟨none, []⟩) (chars "q") =
        chars "❌ هیچ نتیجه‌ای برای \x27" ++ chars "q" ++
          chars "\x27 یافت نشد.\n\n💡 سوال خود را به صورت متفاوت بیان کنید."
    ∧ web_search_duckduckgo .exn (chars "q") =
        chars "⚠️ سرویس جستجو موقتاً در دسترس نیست.\n\n💡 لطفاً کمی بعد تلاش کنید."
    ∧ web_search_duckduckgo (.http 503 ⟨some (chars "abc"), []⟩) (chars "q") =
        chars "⚠️ خطا در انجام جستجو." :=
  ⟨(claim_C7_amended.1 (chars "q") (chars "abc") [] (by decide)).1,
   (claim_C7_amended.2.1 (chars "q") none
      [⟨some (chars "t1"), none⟩, ⟨some (chars "t2"), none⟩, ⟨some (chars "t3"), none⟩]
      rfl (by decide)).2,
   claim_C7_amended.2.2.1 ⟨some (chars "t1"), none⟩ (chars "t1") rfl,
   claim_C7_amended.2.2.2.1 (chars "q") none rfl,
   claim_C7_amended.2.2.2.2.1 (chars "q"),
   claim_C7_amended.2.2.2.2.2 (chars "q") 503 ⟨some (chars "abc"), []⟩ (by decide)⟩
